import Mathlib

/-!
Shallow embedding of `src/room/room.service.ts` (RoomService: CRUD for the
Room and RoomType entities backed by a Prisma persistence gateway).

Storage is a pair of tables (lists of rows).  Prisma calls are embedded as
list operations: `findUnique` / `findFirst` become `List.find?` over the
row predicate built from the `where` clause, `findMany` becomes
`List.filter`, `count` becomes `List.countP`, `create` appends a row whose
identifier and timestamps are supplied by the persistence layer (modelled
as explicit `newId` / `now` parameters), and `update` rewrites the rows
matched by the `where` clause (the persistence layer also refreshes
`updated_at`, per the data-model contract that timestamps are set by the
persistence layer).  A thrown `HttpException` becomes the `Except.error`
branch; operations that may write return the (possibly unchanged) storage
state alongside the result.  The validator is an external collaborator, so
service inputs here are the already-validated request objects.
-/

/-- Row of the `roomType` table. -/
structure RoomTypeRow where
  id_roomtype : String
  room_type : String
  price : Int
  created_at : Nat
  updated_at : Nat
  deleted : Bool
deriving DecidableEq, Repr

/-- Row of the `room` table. -/
structure RoomRow where
  id_room : String
  id_roomtype : String
  status : String
  created_at : Nat
  updated_at : Nat
  deleted : Bool
deriving DecidableEq, Repr

/-- The stored state: the two tables the service touches. -/
structure DB where
  roomTypes : List RoomTypeRow
  rooms : List RoomRow
deriving DecidableEq, Repr

/-- `HttpException(message, status)` from `@nestjs/common`. -/
structure HttpException where
  message : String
  status : Nat
deriving DecidableEq, Repr

/-- `throw new HttpException('Room not found', 404)`. -/
def roomNotFound : HttpException := ⟨"Room not found", 404⟩

/-- `throw new HttpException('Room Type does not exist', 404)`. -/
def roomTypeNotExist : HttpException := ⟨"Room Type does not exist", 404⟩

/-- `throw new HttpException('Room Type not found', 404)`. -/
def roomTypeNotFound : HttpException := ⟨"Room Type not found", 404⟩

/-- Prisma error P2025 (`update` found no row); unreachable after the
service's own existence check succeeded. -/
def updateTargetMissing : HttpException := ⟨"Record to update not found", 500⟩

/-- Validated `RoomCreateRequest` (`id_roomtype`, `status` required). -/
structure RoomCreateRequest where
  id_roomtype : String
  status : String
deriving DecidableEq, Repr

/-- Validated `RoomUpdateRequest`; passed whole as the `data` of the update. -/
structure RoomUpdateRequest where
  id_roomtype : String
  status : String
deriving DecidableEq, Repr

/-- Validated `RoomTypeCreateRequest` (`room_type`, `price` required). -/
structure RoomTypeCreateRequest where
  room_type : String
  price : Int
deriving DecidableEq, Repr

/-- Validated `RoomTypeUpdateRequest`. -/
structure RoomTypeUpdateRequest where
  room_type : String
  price : Int
deriving DecidableEq, Repr

/-- `RoomCreateResponse` shape (flat, no nested roomtype). -/
structure RoomCreateResponse where
  id_room : String
  id_roomtype : String
  status : String
  created_at : Nat
  updated_at : Nat
deriving DecidableEq, Repr

/-- The trimmed nested roomtype view in `RoomDetailResponse`: only
`id_roomtype`, `price` and the timestamps — no `room_type`, no `deleted`. -/
structure RoomTypeView where
  id_roomtype : String
  price : Int
  created_at : Nat
  updated_at : Nat
deriving DecidableEq, Repr

/-- `RoomDetailResponse`: flat room fields plus the trimmed roomtype view. -/
structure RoomDetailResponse where
  id_room : String
  id_roomtype : String
  status : String
  created_at : Nat
  updated_at : Nat
  roomtype : RoomTypeView
deriving DecidableEq, Repr

/-- `RoomTypeResponse` shape. -/
structure RoomTypeResponse where
  id_roomtype : String
  room_type : String
  price : Int
  created_at : Nat
  updated_at : Nat
deriving DecidableEq, Repr

/-- `DeleteResponse` shape. -/
structure DeleteResponse where
  message : String
deriving DecidableEq, Repr

/-- `prisma.roomType.findUnique({ where: { id_roomtype: id } })` —
keyed lookup with NO deleted filter (the create/update reference check). -/
def roomTypeFindUniqueAny (db : DB) (id : String) : Option RoomTypeRow :=
  db.roomTypes.find? fun t => t.id_roomtype == id

/-- `prisma.roomType.findUnique({ where: { id_roomtype: id, deleted: false } })`. -/
def roomTypeFindUniqueLive (db : DB) (id : String) : Option RoomTypeRow :=
  db.roomTypes.find? fun t => t.id_roomtype == id && t.deleted == false

/-- `prisma.room.findUnique({ where: { id_room: id, deleted: false } })`. -/
def roomFindUniqueLive (db : DB) (id : String) : Option RoomRow :=
  db.rooms.find? fun r => r.id_room == id && r.deleted == false

/-- `prisma.room.findUnique({ where: { id_room: id } })` (the `where` of
the update writes, which carries no deleted filter). -/
def roomFindUniqueAny (db : DB) (id : String) : Option RoomRow :=
  db.rooms.find? fun r => r.id_room == id

/-- Build the trimmed nested view from a `roomType` row (the mapping done
inline in `findAll`/`findOne`). -/
def roomTypeViewOf (t : RoomTypeRow) : RoomTypeView :=
  ⟨t.id_roomtype, t.price, t.created_at, t.updated_at⟩

/-- Build the flat `RoomCreateResponse` from a stored room row. -/
def roomCreateResponseOf (r : RoomRow) : RoomCreateResponse :=
  ⟨r.id_room, r.id_roomtype, r.status, r.created_at, r.updated_at⟩

/-- Build a `RoomTypeResponse` from a stored roomType row. -/
def roomTypeResponseOf (t : RoomTypeRow) : RoomTypeResponse :=
  ⟨t.id_roomtype, t.room_type, t.price, t.created_at, t.updated_at⟩

/-- Build a `RoomDetailResponse` from a room row and its joined roomType row. -/
def roomDetailResponseOf (r : RoomRow) (t : RoomTypeRow) : RoomDetailResponse :=
  ⟨r.id_room, r.id_roomtype, r.status, r.created_at, r.updated_at, roomTypeViewOf t⟩

/-- Traversal of a list under `Except`, used to embed the response mapping
of `findAll` (which dereferences each row's joined relation and would fail
on a dangling one). -/
def exceptMap (f : α → Except HttpException β) : List α → Except HttpException (List β)
  | [] => .ok []
  | x :: xs =>
    match f x with
    | .error e => .error e
    | .ok y =>
      match exceptMap f xs with
      | .error e => .error e
      | .ok ys => .ok (y :: ys)

/-- Dereferencing `room.roomType` when the joined relation is absent would
raise a TypeError in the source; modelled as this error value. -/
def danglingRoomType : HttpException := ⟨"TypeError: room.roomType is null", 500⟩

/-- The row transformation applied by `prisma.room.update({ where:
{ id_room: id }, data: { deleted: true } })`: rows matching the `where`
get `deleted := true` (and the persistence layer refreshes `updated_at`),
all other rows are untouched. -/
def markRoomDeleted (id : String) (now : Nat) (r : RoomRow) : RoomRow :=
  if r.id_room == id then { r with deleted := true, updated_at := now } else r

/-- Same for `prisma.roomType.update({ where: { id_roomtype: id },
data: { deleted: true } })`. -/
def markRoomTypeDeleted (id : String) (now : Nat) (t : RoomTypeRow) : RoomTypeRow :=
  if t.id_roomtype == id then { t with deleted := true, updated_at := now } else t

namespace RoomService

/-- `RoomService.create`: check the referenced RoomType exists (no deleted
filter), then insert the room; the persistence layer assigns `newId` and
sets both timestamps to `now`. -/
def create (db : DB) (newId : String) (now : Nat) (request : RoomCreateRequest) :
    Except HttpException RoomCreateResponse × DB :=
  match roomTypeFindUniqueAny db request.id_roomtype with
  | none => (.error roomTypeNotExist, db)
  | some _ =>
    let room : RoomRow :=
      ⟨newId, request.id_roomtype, request.status, now, now, false⟩
    (.ok (roomCreateResponseOf room), { db with rooms := db.rooms ++ [room] })

/-- `RoomService.findAll`: all non-deleted rooms, each joined with its
roomType and mapped to the nested detail response. -/
def findAll (db : DB) : Except HttpException (List RoomDetailResponse) :=
  exceptMap
    (fun r =>
      match roomTypeFindUniqueAny db r.id_roomtype with
      | none => .error danglingRoomType
      | some t => .ok (roomDetailResponseOf r t))
    (db.rooms.filter fun r => r.deleted == false)

/-- `RoomService.findOne`: one non-deleted room by id with its roomType
joined; 404 if absent. -/
def findOne (db : DB) (id : String) : Except HttpException RoomDetailResponse :=
  match roomFindUniqueLive db id with
  | none => .error roomNotFound
  | some r =>
    match roomTypeFindUniqueAny db r.id_roomtype with
    | none => .error danglingRoomType
    | some t => .ok (roomDetailResponseOf r t)

/-- `RoomService.update`: check the referenced RoomType exists (no deleted
filter), check the room exists non-deleted, then write the validated
request over the row matched by `{ id_room: id }`. -/
def update (db : DB) (now : Nat) (id : String) (request : RoomUpdateRequest) :
    Except HttpException RoomCreateResponse × DB :=
  match roomTypeFindUniqueAny db request.id_roomtype with
  | none => (.error roomTypeNotExist, db)
  | some _ =>
    match roomFindUniqueLive db id with
    | none => (.error roomNotFound, db)
    | some _ =>
      match roomFindUniqueAny db id with
      | none => (.error updateTargetMissing, db)
      | some r0 =>
        let r1 : RoomRow :=
          { r0 with
            id_roomtype := request.id_roomtype
            status := request.status
            updated_at := now }
        (.ok (roomCreateResponseOf r1),
          { db with rooms := db.rooms.map fun r => if r.id_room == id then r1 else r })

/-- `RoomService.delete`: check the room exists non-deleted, then mark the
row `deleted := true`. -/
def delete (db : DB) (now : Nat) (id : String) :
    Except HttpException DeleteResponse × DB :=
  match roomFindUniqueLive db id with
  | none => (.error roomNotFound, db)
  | some _ =>
    (.ok ⟨"Deleted successfully"⟩,
      { db with rooms := db.rooms.map (markRoomDeleted id now) })

/-- `RoomService.createRoomType`: unconditional insert; the persistence
layer assigns `newId` and sets both timestamps to `now`. -/
def createRoomType (db : DB) (newId : String) (now : Nat)
    (request : RoomTypeCreateRequest) : RoomTypeResponse × DB :=
  let row : RoomTypeRow :=
    ⟨newId, request.room_type, request.price, now, now, false⟩
  (roomTypeResponseOf row, { db with roomTypes := db.roomTypes ++ [row] })

/-- `RoomService.findAllRoomType`: all non-deleted roomTypes, mapped to the
response shape. -/
def findAllRoomType (db : DB) : List RoomTypeResponse :=
  (db.roomTypes.filter fun t => t.deleted == false).map roomTypeResponseOf

/-- `RoomService.findOneRoomType`: one non-deleted roomType by id; 404 if
absent. -/
def findOneRoomType (db : DB) (id : String) : Except HttpException RoomTypeResponse :=
  match roomTypeFindUniqueLive db id with
  | none => .error roomTypeNotFound
  | some t => .ok (roomTypeResponseOf t)

/-- `RoomService.updateRoomType`: `count({ id_roomtype: id, deleted:
false })` must be nonzero, then write the validated request over the row
matched by `{ id_roomtype: id }`. -/
def updateRoomType (db : DB) (now : Nat) (id : String)
    (request : RoomTypeUpdateRequest) : Except HttpException RoomTypeResponse × DB :=
  if db.roomTypes.countP (fun t => t.id_roomtype == id && t.deleted == false) = 0 then
    (.error roomTypeNotFound, db)
  else
    match db.roomTypes.find? (fun t => t.id_roomtype == id) with
    | none => (.error updateTargetMissing, db)
    | some t0 =>
      let t1 : RoomTypeRow :=
        { t0 with
          room_type := request.room_type
          price := request.price
          updated_at := now }
      (.ok (roomTypeResponseOf t1),
        { db with roomTypes := db.roomTypes.map fun t => if t.id_roomtype == id then t1 else t })

/-- `RoomService.deleteRoomType`: check the roomType exists non-deleted,
then mark the row `deleted := true`.  No check on rooms referencing it. -/
def deleteRoomType (db : DB) (now : Nat) (id : String) :
    Except HttpException DeleteResponse × DB :=
  match roomTypeFindUniqueLive db id with
  | none => (.error roomTypeNotFound, db)
  | some _ =>
    (.ok ⟨"Deleted successfully"⟩,
      { db with roomTypes := db.roomTypes.map (markRoomTypeDeleted id now) })

end RoomService

/-! Concrete sample storage states, used to instantiate the theorems. -/

/-- A live roomType row. -/
def sampleType : RoomTypeRow := ⟨"t1", "Deluxe", 100, 0, 0, false⟩

/-- A soft-deleted roomType row. -/
def sampleTypeGone : RoomTypeRow := ⟨"t2", "Suite", 200, 0, 0, true⟩

/-- A live room row referencing `sampleType`. -/
def sampleRoom : RoomRow := ⟨"r1", "t1", "available", 0, 0, false⟩

/-- A soft-deleted room row. -/
def sampleRoomGone : RoomRow := ⟨"r2", "t1", "occupied", 0, 0, true⟩

/-- A live room row referencing the soft-deleted `sampleTypeGone`. -/
def sampleRoomOnGone : RoomRow := ⟨"r3", "t2", "available", 0, 0, false⟩

/-- Sample storage mixing live and soft-deleted rows. -/
def sampleDB : DB :=
  ⟨[sampleType, sampleTypeGone], [sampleRoom, sampleRoomGone, sampleRoomOnGone]⟩

/-! Helper lemmas about the embedded gateway operations. -/

/-- A keyed lookup fails when no row carries the key. -/
theorem roomTypeFindUniqueAny_eq_none {db : DB} {id : String}
    (h : ∀ t ∈ db.roomTypes, t.id_roomtype ≠ id) :
    roomTypeFindUniqueAny db id = none := by
  refine List.find?_eq_none.mpr fun t ht => ?_
  simp only [beq_iff_eq]
  exact h t ht

/-- The live lookup on the `room` table fails when every row carrying the
key is soft-deleted (which covers keys carried by no row at all). -/
theorem roomFindUniqueLive_eq_none {db : DB} {id : String}
    (h : ∀ r ∈ db.rooms, r.id_room = id → r.deleted = true) :
    roomFindUniqueLive db id = none := by
  refine List.find?_eq_none.mpr fun r hr => ?_
  simp only [Bool.and_eq_true, beq_iff_eq, not_and]
  intro h1 h2
  rw [h r hr h1] at h2
  exact absurd h2 (by simp)

/-- The live lookup on the `roomType` table fails when every row carrying
the key is soft-deleted. -/
theorem roomTypeFindUniqueLive_eq_none {db : DB} {id : String}
    (h : ∀ t ∈ db.roomTypes, t.id_roomtype = id → t.deleted = true) :
    roomTypeFindUniqueLive db id = none := by
  refine List.find?_eq_none.mpr fun t ht => ?_
  simp only [Bool.and_eq_true, beq_iff_eq, not_and]
  intro h1 h2
  rw [h t ht h1] at h2
  exact absurd h2 (by simp)

/-- If a search under a stronger predicate succeeds, a search under a
weaker predicate succeeds as well (on a possibly earlier element). -/
theorem find?_of_imp {α : Type} {p q : α → Bool}
    (hpq : ∀ x, p x = true → q x = true) :
    ∀ {l : List α} {a : α}, l.find? p = some a →
      ∃ b, l.find? q = some b ∧ q b = true
  | [], _, h => by simp [List.find?] at h
  | x :: xs, a, h => by
    cases hq : q x with
    | true => exact ⟨x, List.find?_cons_of_pos _ hq, hq⟩
    | false =>
      have hp : p x = false := by
        cases hpx : p x with
        | false => rfl
        | true => rw [hpq x hpx] at hq; exact absurd hq (by simp)
      have hx : xs.find? p = some a := by
        rwa [List.find?_cons_of_neg _ (by simp [hp])] at h
      obtain ⟨b, hb, hqb⟩ := find?_of_imp hpq hx
      exact ⟨b, by rwa [List.find?_cons_of_neg _ (by simp [hq])], hqb⟩

/-- `markRoomDeleted` preserves the row identifier. -/
theorem markRoomDeleted_id (id : String) (now : Nat) (r : RoomRow) :
    (markRoomDeleted id now r).id_room = r.id_room := by
  unfold markRoomDeleted
  by_cases h : r.id_room == id <;> simp [h]

/-- `markRoomTypeDeleted` preserves the row identifier. -/
theorem markRoomTypeDeleted_id (id : String) (now : Nat) (t : RoomTypeRow) :
    (markRoomTypeDeleted id now t).id_roomtype = t.id_roomtype := by
  unfold markRoomTypeDeleted
  by_cases h : t.id_roomtype == id <;> simp [h]

/-- After the soft-delete write, every row carrying the targeted key is
marked deleted. -/
theorem markRoomDeleted_kills {id : String} {now : Nat} {r : RoomRow}
    (h : (markRoomDeleted id now r).id_room = id) :
    (markRoomDeleted id now r).deleted = true := by
  unfold markRoomDeleted at h ⊢
  by_cases hr : r.id_room == id <;> simp_all

/-- After the soft-delete write, every roomType row carrying the targeted
key is marked deleted. -/
theorem markRoomTypeDeleted_kills {id : String} {now : Nat} {t : RoomTypeRow}
    (h : (markRoomTypeDeleted id now t).id_roomtype = id) :
    (markRoomTypeDeleted id now t).deleted = true := by
  unfold markRoomTypeDeleted at h ⊢
  by_cases ht : t.id_roomtype == id <;> simp_all

/-- C1: for every id that is not present in storage or whose row is marked
deleted, each of the six lookup-guarded operations (Room findOne / update /
delete, RoomType findOneRoomType / updateRoomType / deleteRoomType) fails
with a 404 NotFound error and leaves the stored state unchanged. -/
theorem spec_C1_notfound_atomic (db : DB) (id : String) (now : Nat)
    (ureq : RoomUpdateRequest) (treq : RoomTypeUpdateRequest)
    (hr : ∀ r ∈ db.rooms, r.id_room = id → r.deleted = true)
    (ht : ∀ t ∈ db.roomTypes, t.id_roomtype = id → t.deleted = true) :
    RoomService.findOne db id = .error roomNotFound ∧
    (∃ e, RoomService.update db now id ureq = (.error e, db) ∧ e.status = 404) ∧
    RoomService.delete db now id = (.error roomNotFound, db) ∧
    RoomService.findOneRoomType db id = .error roomTypeNotFound ∧
    RoomService.updateRoomType db now id treq = (.error roomTypeNotFound, db) ∧
    RoomService.deleteRoomType db now id = (.error roomTypeNotFound, db) := by
  have hlr : roomFindUniqueLive db id = none := roomFindUniqueLive_eq_none hr
  have hlt : roomTypeFindUniqueLive db id = none := roomTypeFindUniqueLive_eq_none ht
  have hcount :
      db.roomTypes.countP (fun t => t.id_roomtype == id && t.deleted == false) = 0 := by
    refine List.countP_eq_zero.mpr fun t htm => ?_
    simp only [Bool.and_eq_true, beq_iff_eq, not_and]
    intro h1 h2
    rw [ht t htm h1] at h2
    exact absurd h2 (by simp)
  refine ⟨?_, ?_, ?_, ?_, ?_, ?_⟩
  · simp [RoomService.findOne, hlr]
  · cases hrt : roomTypeFindUniqueAny db ureq.id_roomtype with
    | none => exact ⟨roomTypeNotExist, by simp [RoomService.update, hrt], rfl⟩
    | some t0 => exact ⟨roomNotFound, by simp [RoomService.update, hrt, hlr], rfl⟩
  · simp [RoomService.delete, hlr]
  · simp [RoomService.findOneRoomType, hlt]
  · simp only [RoomService.updateRoomType, hcount]
    simp
  · simp [RoomService.deleteRoomType, hlt]

/-- C1 witness: id `"r2"` exists only as a soft-deleted room in `sampleDB`. -/
theorem spec_C1_witness :
    RoomService.findOne sampleDB "r2" = .error roomNotFound ∧
    (∃ e, RoomService.update sampleDB 7 "r2" ⟨"t1", "busy"⟩ = (.error e, sampleDB) ∧
      e.status = 404) ∧
    RoomService.delete sampleDB 7 "r2" = (.error roomNotFound, sampleDB) ∧
    RoomService.findOneRoomType sampleDB "r2" = .error roomTypeNotFound ∧
    RoomService.updateRoomType sampleDB 7 "r2" ⟨"Std", 5⟩ =
      (.error roomTypeNotFound, sampleDB) ∧
    RoomService.deleteRoomType sampleDB 7 "r2" = (.error roomTypeNotFound, sampleDB) :=
  spec_C1_notfound_atomic sampleDB "r2" 7 ⟨"t1", "busy"⟩ ⟨"Std", 5⟩
    (by decide) (by decide)

/-- C4: creating or updating a Room whose validated `id_roomtype` matches no
RoomType row fails with NotFound (message "Room Type does not exist",
status 404) and leaves storage unchanged. -/
theorem spec_C4_missing_roomtype_rejected (db : DB) (newId id : String) (now : Nat)
    (creq : RoomCreateRequest) (ureq : RoomUpdateRequest)
    (hc : ∀ t ∈ db.roomTypes, t.id_roomtype ≠ creq.id_roomtype)
    (hu : ∀ t ∈ db.roomTypes, t.id_roomtype ≠ ureq.id_roomtype) :
    RoomService.create db newId now creq = (.error roomTypeNotExist, db) ∧
    RoomService.update db now id ureq = (.error roomTypeNotExist, db) ∧
    roomTypeNotExist.message = "Room Type does not exist" ∧
    roomTypeNotExist.status = 404 := by
  have h1 := roomTypeFindUniqueAny_eq_none hc
  have h2 := roomTypeFindUniqueAny_eq_none hu
  refine ⟨?_, ?_, rfl, rfl⟩
  · simp [RoomService.create, h1]
  · simp [RoomService.update, h2]

/-- C4 witness: id `"t9"` matches no roomType row of `sampleDB`. -/
theorem spec_C4_witness :
    RoomService.create sampleDB "r9" 3 ⟨"t9", "available"⟩ =
      (.error roomTypeNotExist, sampleDB) ∧
    RoomService.update sampleDB 3 "r1" ⟨"t9", "busy"⟩ =
      (.error roomTypeNotExist, sampleDB) ∧
    roomTypeNotExist.message = "Room Type does not exist" ∧
    roomTypeNotExist.status = 404 :=
  spec_C4_missing_roomtype_rejected sampleDB "r9" "r1" 3 ⟨"t9", "available"⟩
    ⟨"t9", "busy"⟩ (by decide) (by decide)

/-- C5: deleting an already-soft-deleted Room or RoomType fails with
NotFound and performs no write; consequently a second delete of the same id
after a successful one always fails. -/
theorem spec_C5_double_delete_fails (db db2 : DB) (id : String) (now now2 : Nat)
    (m : DeleteResponse) :
    ((∀ r ∈ db.rooms, r.id_room = id → r.deleted = true) →
        RoomService.delete db now id = (.error roomNotFound, db)) ∧
    ((∀ t ∈ db.roomTypes, t.id_roomtype = id → t.deleted = true) →
        RoomService.deleteRoomType db now id = (.error roomTypeNotFound, db)) ∧
    (RoomService.delete db now id = (.ok m, db2) →
        RoomService.delete db2 now2 id = (.error roomNotFound, db2)) ∧
    (RoomService.deleteRoomType db now id = (.ok m, db2) →
        RoomService.deleteRoomType db2 now2 id = (.error roomTypeNotFound, db2)) := by
  refine ⟨fun hr => ?_, fun ht => ?_, fun hdel => ?_, fun hdelT => ?_⟩
  · simp [RoomService.delete, roomFindUniqueLive_eq_none hr]
  · simp [RoomService.deleteRoomType, roomTypeFindUniqueLive_eq_none ht]
  · unfold RoomService.delete at hdel
    cases hfind : roomFindUniqueLive db id with
    | none => rw [hfind] at hdel; exact absurd hdel (by simp)
    | some r0 =>
      rw [hfind] at hdel
      have hdb2 : ({ db with rooms := db.rooms.map (markRoomDeleted id now) } : DB)
          = db2 := congrArg Prod.snd hdel
      have hgone : ∀ r ∈ db2.rooms, r.id_room = id → r.deleted = true := by
        rw [← hdb2]
        intro r hrm hid
        obtain ⟨r1, hr1, rfl⟩ := List.mem_map.mp hrm
        exact markRoomDeleted_kills hid
      simp [RoomService.delete, roomFindUniqueLive_eq_none hgone]
  · unfold RoomService.deleteRoomType at hdelT
    cases hfind : roomTypeFindUniqueLive db id with
    | none => rw [hfind] at hdelT; exact absurd hdelT (by simp)
    | some t0 =>
      rw [hfind] at hdelT
      have hdb2 : ({ db with roomTypes := db.roomTypes.map (markRoomTypeDeleted id now) } : DB)
          = db2 := congrArg Prod.snd hdelT
      have hgone : ∀ t ∈ db2.roomTypes, t.id_roomtype = id → t.deleted = true := by
        rw [← hdb2]
        intro t htm hid
        obtain ⟨t1, ht1, rfl⟩ := List.mem_map.mp htm
        exact markRoomTypeDeleted_kills hid
      simp [RoomService.deleteRoomType, roomTypeFindUniqueLive_eq_none hgone]

/-- C5 witness: instantiated at `sampleDB` and id `"r2"` (a soft-deleted
room, and an id carried by no roomType row). -/
theorem spec_C5_witness :
    ((∀ r ∈ sampleDB.rooms, r.id_room = "r2" → r.deleted = true) →
        RoomService.delete sampleDB 4 "r2" = (.error roomNotFound, sampleDB)) ∧
    ((∀ t ∈ sampleDB.roomTypes, t.id_roomtype = "r2" → t.deleted = true) →
        RoomService.deleteRoomType sampleDB 4 "r2" =
          (.error roomTypeNotFound, sampleDB)) ∧
    (RoomService.delete sampleDB 4 "r2" = (.ok ⟨"Deleted successfully"⟩, sampleDB) →
        RoomService.delete sampleDB 9 "r2" = (.error roomNotFound, sampleDB)) ∧
    (RoomService.deleteRoomType sampleDB 4 "r2" =
        (.ok ⟨"Deleted successfully"⟩, sampleDB) →
        RoomService.deleteRoomType sampleDB 9 "r2" =
          (.error roomTypeNotFound, sampleDB)) :=
  spec_C5_double_delete_fails sampleDB sampleDB "r2" 4 9 ⟨"Deleted successfully"⟩

/-- C9: a successful delete writes only the soft-delete mark to the rows
matching the targeted id. The delete of a Room leaves the roomType table
untouched and rewrites the room table by a per-row function that is the
identity on rows with a different id and, on rows with the targeted id,
preserves every caller-visible field (`id_room`, `id_roomtype`, `status`,
`created_at`) while setting `deleted := true` (timestamps aside:
`updated_at` is refreshed by the persistence layer). Symmetrically for
deleteRoomType. -/
theorem spec_C9_delete_frame (db db2 db3 : DB) (id tid : String) (now : Nat)
    (m m2 : DeleteResponse)
    (hdel : RoomService.delete db now id = (.ok m, db2))
    (hdelT : RoomService.deleteRoomType db now tid = (.ok m2, db3)) :
    (db2.roomTypes = db.roomTypes ∧
     db2.rooms = db.rooms.map (markRoomDeleted id now) ∧
     (∀ r : RoomRow, r.id_room ≠ id → markRoomDeleted id now r = r) ∧
     (∀ r : RoomRow, r.id_room = id →
        (markRoomDeleted id now r).id_room = r.id_room ∧
        (markRoomDeleted id now r).id_roomtype = r.id_roomtype ∧
        (markRoomDeleted id now r).status = r.status ∧
        (markRoomDeleted id now r).created_at = r.created_at ∧
        (markRoomDeleted id now r).deleted = true)) ∧
    (db3.rooms = db.rooms ∧
     db3.roomTypes = db.roomTypes.map (markRoomTypeDeleted tid now) ∧
     (∀ t : RoomTypeRow, t.id_roomtype ≠ tid → markRoomTypeDeleted tid now t = t) ∧
     (∀ t : RoomTypeRow, t.id_roomtype = tid →
        (markRoomTypeDeleted tid now t).id_roomtype = t.id_roomtype ∧
        (markRoomTypeDeleted tid now t).room_type = t.room_type ∧
        (markRoomTypeDeleted tid now t).price = t.price ∧
        (markRoomTypeDeleted tid now t).created_at = t.created_at ∧
        (markRoomTypeDeleted tid now t).deleted = true)) := by
  unfold RoomService.delete at hdel
  unfold RoomService.deleteRoomType at hdelT
  constructor
  · cases hfind : roomFindUniqueLive db id with
    | none => rw [hfind] at hdel; exact absurd hdel (by simp)
    | some r0 =>
      rw [hfind] at hdel
      have hdb2 : ({ db with rooms := db.rooms.map (markRoomDeleted id now) } : DB)
          = db2 := congrArg Prod.snd hdel
      refine ⟨by rw [← hdb2], by rw [← hdb2], fun r hne => ?_, fun r heq => ?_⟩
      · unfold markRoomDeleted
        simp [hne]
      · unfold markRoomDeleted
        simp [heq]
  · cases hfind : roomTypeFindUniqueLive db tid with
    | none => rw [hfind] at hdelT; exact absurd hdelT (by simp)
    | some t0 =>
      rw [hfind] at hdelT
      have hdb3 :
          ({ db with roomTypes := db.roomTypes.map (markRoomTypeDeleted tid now) } : DB)
          = db3 := congrArg Prod.snd hdelT
      refine ⟨by rw [← hdb3], by rw [← hdb3], fun t hne => ?_, fun t heq => ?_⟩
      · unfold markRoomTypeDeleted
        simp [hne]
      · unfold markRoomTypeDeleted
        simp [heq]

/-- C9 witness: delete room `"r1"` and roomType `"t1"` from `sampleDB`. -/
theorem spec_C9_witness :
    ((RoomService.delete sampleDB 5 "r1").2.roomTypes = sampleDB.roomTypes ∧
     (RoomService.delete sampleDB 5 "r1").2.rooms =
        sampleDB.rooms.map (markRoomDeleted "r1" 5) ∧
     (∀ r : RoomRow, r.id_room ≠ "r1" → markRoomDeleted "r1" 5 r = r) ∧
     (∀ r : RoomRow, r.id_room = "r1" →
        (markRoomDeleted "r1" 5 r).id_room = r.id_room ∧
        (markRoomDeleted "r1" 5 r).id_roomtype = r.id_roomtype ∧
        (markRoomDeleted "r1" 5 r).status = r.status ∧
        (markRoomDeleted "r1" 5 r).created_at = r.created_at ∧
        (markRoomDeleted "r1" 5 r).deleted = true)) ∧
    ((RoomService.deleteRoomType sampleDB 5 "t1").2.rooms = sampleDB.rooms ∧
     (RoomService.deleteRoomType sampleDB 5 "t1").2.roomTypes =
        sampleDB.roomTypes.map (markRoomTypeDeleted "t1" 5) ∧
     (∀ t : RoomTypeRow, t.id_roomtype ≠ "t1" → markRoomTypeDeleted "t1" 5 t = t) ∧
     (∀ t : RoomTypeRow, t.id_roomtype = "t1" →
        (markRoomTypeDeleted "t1" 5 t).id_roomtype = t.id_roomtype ∧
        (markRoomTypeDeleted "t1" 5 t).room_type = t.room_type ∧
        (markRoomTypeDeleted "t1" 5 t).price = t.price ∧
        (markRoomTypeDeleted "t1" 5 t).created_at = t.created_at ∧
        (markRoomTypeDeleted "t1" 5 t).deleted = true)) :=
  spec_C9_delete_frame sampleDB (RoomService.delete sampleDB 5 "r1").2
    (RoomService.deleteRoomType sampleDB 5 "t1").2 "r1" "t1" 5
    ⟨"Deleted successfully"⟩ ⟨"Deleted successfully"⟩ rfl rfl

/-- C7: for valid create inputs, every field of the returned response
equals the corresponding field of the stored row (the response is exactly
the field-projection of the appended row), and the stored row has
`created_at = updated_at` at creation. -/
theorem spec_C7_create_roundtrip (db : DB) (newId newTid : String) (now : Nat)
    (creq : RoomCreateRequest) (treq : RoomTypeCreateRequest) (t : RoomTypeRow)
    (hval : roomTypeFindUniqueAny db creq.id_roomtype = some t) :
    (∃ resp db2 row, RoomService.create db newId now creq = (.ok resp, db2) ∧
      db2.rooms = db.rooms ++ [row] ∧ db2.roomTypes = db.roomTypes ∧
      resp = roomCreateResponseOf row ∧ row.created_at = row.updated_at) ∧
    (∃ resp db2 row, RoomService.createRoomType db newTid now treq = (resp, db2) ∧
      db2.roomTypes = db.roomTypes ++ [row] ∧ db2.rooms = db.rooms ∧
      resp = roomTypeResponseOf row ∧ row.created_at = row.updated_at) := by
  constructor
  · refine ⟨roomCreateResponseOf ⟨newId, creq.id_roomtype, creq.status, now, now, false⟩,
      { db with rooms :=
          db.rooms ++ [⟨newId, creq.id_roomtype, creq.status, now, now, false⟩] },
      ⟨newId, creq.id_roomtype, creq.status, now, now, false⟩,
      ?_, rfl, rfl, rfl, rfl⟩
    simp [RoomService.create, hval]
  · exact ⟨roomTypeResponseOf ⟨newTid, treq.room_type, treq.price, now, now, false⟩,
      { db with roomTypes :=
          db.roomTypes ++ [⟨newTid, treq.room_type, treq.price, now, now, false⟩] },
      ⟨newTid, treq.room_type, treq.price, now, now, false⟩,
      rfl, rfl, rfl, rfl, rfl⟩

/-- C7 witness: create a room referencing `"t1"` and a fresh roomType in
`sampleDB`. -/
theorem spec_C7_witness :
    (∃ resp db2 row,
      RoomService.create sampleDB "r7" 6 ⟨"t1", "available"⟩ = (.ok resp, db2) ∧
      db2.rooms = sampleDB.rooms ++ [row] ∧ db2.roomTypes = sampleDB.roomTypes ∧
      resp = roomCreateResponseOf row ∧ row.created_at = row.updated_at) ∧
    (∃ resp db2 row,
      RoomService.createRoomType sampleDB "t7" 6 ⟨"Twin", 80⟩ = (resp, db2) ∧
      db2.roomTypes = sampleDB.roomTypes ++ [row] ∧ db2.rooms = sampleDB.rooms ∧
      resp = roomTypeResponseOf row ∧ row.created_at = row.updated_at) :=
  spec_C7_create_roundtrip sampleDB "r7" "t7" 6 ⟨"t1", "available"⟩ ⟨"Twin", 80⟩
    sampleType (by decide)

/-- Membership characterisation of a successful `exceptMap` traversal:
every output element is the image of some input element, and every input
element contributes an output element. -/
theorem exceptMap_ok_mem {α β : Type} {f : α → Except HttpException β} :
    ∀ {l : List α} {ys : List β}, exceptMap f l = .ok ys →
      (∀ y ∈ ys, ∃ x ∈ l, f x = .ok y) ∧ (∀ x ∈ l, ∃ y ∈ ys, f x = .ok y)
  | [], ys, h => by
    simp only [exceptMap, Except.ok.injEq] at h
    subst h
    exact ⟨by simp, by simp⟩
  | x :: xs, ys, h => by
    simp only [exceptMap] at h
    cases hfx : f x with
    | error e => rw [hfx] at h; exact absurd h (by simp)
    | ok y =>
      rw [hfx] at h
      cases hrest : exceptMap f xs with
      | error e => rw [hrest] at h; exact absurd h (by simp)
      | ok ys0 =>
        rw [hrest] at h
        simp only [Except.ok.injEq] at h
        subst h
        obtain ⟨ih1, ih2⟩ := exceptMap_ok_mem hrest
        constructor
        · intro z hz
          rcases List.mem_cons.mp hz with hz | hz
          · exact ⟨x, List.mem_cons_self x xs, by rw [hfx, hz]⟩
          · obtain ⟨x0, hx0, hfx0⟩ := ih1 z hz
            exact ⟨x0, List.mem_cons_of_mem x hx0, hfx0⟩
        · intro x0 hx0
          rcases List.mem_cons.mp hx0 with hx0 | hx0
          · exact ⟨y, List.mem_cons_self y ys0, by rw [hx0]; exact hfx⟩
          · obtain ⟨z, hz, hfz⟩ := ih2 x0 hx0
            exact ⟨z, List.mem_cons_of_mem y hz, hfz⟩

/-- C2: the RoomType-existence check of Room create/update carries no
deleted filter, so a Room referencing a soft-deleted RoomType is created /
updated successfully and persisted with that reference. -/
theorem spec_C2_softdeleted_roomtype_accepted (db : DB) (newId : String)
    (now : Nat) (st st2 : String) (tid rid : String) (t : RoomTypeRow)
    (r0 : RoomRow)
    (hfind : roomTypeFindUniqueAny db tid = some t)
    (_hdead : t.deleted = true)
    (hroom : roomFindUniqueLive db rid = some r0) :
    (∃ resp db2, RoomService.create db newId now ⟨tid, st⟩ = (.ok resp, db2) ∧
      resp.id_roomtype = tid ∧
      ∃ rr ∈ db2.rooms, rr.id_room = newId ∧ rr.id_roomtype = tid) ∧
    (∃ resp db2, RoomService.update db now rid ⟨tid, st2⟩ = (.ok resp, db2) ∧
      resp.id_roomtype = tid ∧
      ∃ rr ∈ db2.rooms, rr.id_room = rid ∧ rr.id_roomtype = tid) := by
  constructor
  · refine ⟨roomCreateResponseOf ⟨newId, tid, st, now, now, false⟩,
      { db with rooms := db.rooms ++ [⟨newId, tid, st, now, now, false⟩] },
      ?_, rfl, ⟨newId, tid, st, now, now, false⟩, ?_, rfl, rfl⟩
    · simp [RoomService.create, hfind]
    · simp
  · have hroom0 : db.rooms.find? (fun r => r.id_room == rid && r.deleted == false)
        = some r0 := hroom
    obtain ⟨r1, hr1find, hr1p⟩ :=
      @find?_of_imp RoomRow (fun r => r.id_room == rid && r.deleted == false)
        (fun r => r.id_room == rid)
        (fun x hx => ((Bool.and_eq_true _ _).mp hx).1) db.rooms r0 hroom0
    have hr1id : r1.id_room = rid := by simpa using hr1p
    have hany : roomFindUniqueAny db rid = some r1 := hr1find
    refine ⟨roomCreateResponseOf
        { r1 with id_roomtype := tid, status := st2, updated_at := now },
      { db with rooms := db.rooms.map fun r =>
          if r.id_room == rid then
            { r1 with id_roomtype := tid, status := st2, updated_at := now }
          else r },
      ?_, rfl,
      { r1 with id_roomtype := tid, status := st2, updated_at := now }, ?_, hr1id, rfl⟩
    · simp only [RoomService.update, hfind, hroom, hany]
    · refine List.mem_map.mpr ⟨r1, List.mem_of_find?_eq_some hr1find, ?_⟩
      simp [hr1id]

/-- C2 witness: `"t2"` is soft-deleted in `sampleDB`, `"r1"` is a live room. -/
theorem spec_C2_witness :
    (∃ resp db2,
      RoomService.create sampleDB "r8" 6 ⟨"t2", "available"⟩ = (.ok resp, db2) ∧
      resp.id_roomtype = "t2" ∧
      ∃ rr ∈ db2.rooms, rr.id_room = "r8" ∧ rr.id_roomtype = "t2") ∧
    (∃ resp db2,
      RoomService.update sampleDB 6 "r1" ⟨"t2", "busy"⟩ = (.ok resp, db2) ∧
      resp.id_roomtype = "t2" ∧
      ∃ rr ∈ db2.rooms, rr.id_room = "r1" ∧ rr.id_roomtype = "t2") :=
  spec_C2_softdeleted_roomtype_accepted sampleDB "r8" 6 "available" "busy" "t2" "r1"
    sampleTypeGone sampleRoom (by decide) (by decide) (by decide)

/-- C6: the list operations return exactly the rows with `deleted = false`:
every returned element arises from a stored non-deleted row, and every
stored non-deleted row contributes an element; no element arises from a
deleted row. -/
theorem spec_C6_list_excludes_deleted (db : DB) (rs : List RoomDetailResponse)
    (hall : RoomService.findAll db = .ok rs) :
    (∀ d ∈ rs, ∃ r ∈ db.rooms, r.deleted = false ∧
        ∃ t, roomTypeFindUniqueAny db r.id_roomtype = some t ∧
          d = roomDetailResponseOf r t) ∧
    (∀ r ∈ db.rooms, r.deleted = false →
        ∃ d ∈ rs, ∃ t, roomTypeFindUniqueAny db r.id_roomtype = some t ∧
          d = roomDetailResponseOf r t) ∧
    (∀ tr ∈ RoomService.findAllRoomType db,
        ∃ t ∈ db.roomTypes, t.deleted = false ∧ tr = roomTypeResponseOf t) ∧
    (∀ t ∈ db.roomTypes, t.deleted = false →
        roomTypeResponseOf t ∈ RoomService.findAllRoomType db) := by
  unfold RoomService.findAll at hall
  obtain ⟨h1, h2⟩ := exceptMap_ok_mem hall
  refine ⟨?_, ?_, ?_, ?_⟩
  · intro d hd
    obtain ⟨r, hrmem, hfr⟩ := h1 d hd
    obtain ⟨hrin, hrdel⟩ := List.mem_filter.mp hrmem
    refine ⟨r, hrin, by simpa using hrdel, ?_⟩
    cases hj : roomTypeFindUniqueAny db r.id_roomtype with
    | none => rw [hj] at hfr; exact absurd hfr (by simp)
    | some t =>
      rw [hj] at hfr
      simp only [Except.ok.injEq] at hfr
      exact ⟨t, rfl, hfr.symm⟩
  · intro r hrin hrdel
    have hrmem : r ∈ db.rooms.filter fun r => r.deleted == false :=
      List.mem_filter.mpr ⟨hrin, by simp [hrdel]⟩
    obtain ⟨d, hd, hfr⟩ := h2 r hrmem
    refine ⟨d, hd, ?_⟩
    cases hj : roomTypeFindUniqueAny db r.id_roomtype with
    | none => rw [hj] at hfr; exact absurd hfr (by simp)
    | some t =>
      rw [hj] at hfr
      simp only [Except.ok.injEq] at hfr
      exact ⟨t, rfl, hfr.symm⟩
  · intro tr htr
    obtain ⟨t, htmem, htr⟩ := List.mem_map.mp htr
    obtain ⟨htin, htdel⟩ := List.mem_filter.mp htmem
    exact ⟨t, htin, by simpa using htdel, htr.symm⟩
  · intro t htin htdel
    exact List.mem_map_of_mem _ (List.mem_filter.mpr ⟨htin, by simp [htdel]⟩)

/-- C6 witness: `sampleDB`, whose live rooms are `r1` and `r3` and whose
live roomType is `t1`. -/
theorem spec_C6_witness :
    (∀ d ∈ [roomDetailResponseOf sampleRoom sampleType,
            roomDetailResponseOf sampleRoomOnGone sampleTypeGone],
        ∃ r ∈ sampleDB.rooms, r.deleted = false ∧
          ∃ t, roomTypeFindUniqueAny sampleDB r.id_roomtype = some t ∧
            d = roomDetailResponseOf r t) ∧
    (∀ r ∈ sampleDB.rooms, r.deleted = false →
        ∃ d ∈ [roomDetailResponseOf sampleRoom sampleType,
               roomDetailResponseOf sampleRoomOnGone sampleTypeGone],
          ∃ t, roomTypeFindUniqueAny sampleDB r.id_roomtype = some t ∧
            d = roomDetailResponseOf r t) ∧
    (∀ tr ∈ RoomService.findAllRoomType sampleDB,
        ∃ t ∈ sampleDB.roomTypes, t.deleted = false ∧ tr = roomTypeResponseOf t) ∧
    (∀ t ∈ sampleDB.roomTypes, t.deleted = false →
        roomTypeResponseOf t ∈ RoomService.findAllRoomType sampleDB) :=
  spec_C6_list_excludes_deleted sampleDB
    [roomDetailResponseOf sampleRoom sampleType,
     roomDetailResponseOf sampleRoomOnGone sampleTypeGone] rfl

/-- The soft-delete rewrite of the roomType table commutes with keyed
search, because it preserves every row's identifier. -/
theorem find?_map_markRoomTypeDeleted (l : List RoomTypeRow) (tid : String)
    (now : Nat) (s : String) :
    (l.map (markRoomTypeDeleted tid now)).find? (fun t => t.id_roomtype == s)
      = (l.find? fun t => t.id_roomtype == s).map (markRoomTypeDeleted tid now) := by
  rw [List.find?_map]
  have hp : ((fun t : RoomTypeRow => t.id_roomtype == s) ∘ markRoomTypeDeleted tid now)
      = fun t : RoomTypeRow => t.id_roomtype == s := by
    funext t
    simp only [Function.comp_apply, markRoomTypeDeleted_id]
  rw [hp]

/-- C3: after a successful soft-delete of a RoomType, `findOneRoomType` on
that id fails with NotFound, yet `findOne` on any still-live Room
referencing that id succeeds and nests the view built from the
soft-deleted row (the join does not re-check the deleted flag). -/
theorem spec_C3_stale_join_survives (db db2 : DB) (now : Nat) (tid rid : String)
    (m : DeleteResponse) (r : RoomRow)
    (hdel : RoomService.deleteRoomType db now tid = (.ok m, db2))
    (hr : roomFindUniqueLive db2 rid = some r)
    (href : r.id_roomtype = tid) :
    RoomService.findOneRoomType db2 tid = .error roomTypeNotFound ∧
    ∃ t d, roomTypeFindUniqueAny db2 tid = some t ∧ t.deleted = true ∧
      RoomService.findOne db2 rid = .ok d ∧ d.roomtype = roomTypeViewOf t := by
  unfold RoomService.deleteRoomType at hdel
  cases hfind : roomTypeFindUniqueLive db tid with
  | none => rw [hfind] at hdel; exact absurd hdel (by simp)
  | some t0 =>
    rw [hfind] at hdel
    have hdb2 :
        ({ db with roomTypes := db.roomTypes.map (markRoomTypeDeleted tid now) } : DB)
        = db2 := congrArg Prod.snd hdel
    have hTypes : db2.roomTypes = db.roomTypes.map (markRoomTypeDeleted tid now) := by
      rw [← hdb2]
    have hgone : ∀ t ∈ db2.roomTypes, t.id_roomtype = tid → t.deleted = true := by
      rw [hTypes]
      intro t htm hid
      obtain ⟨t1, ht1, rfl⟩ := List.mem_map.mp htm
      exact markRoomTypeDeleted_kills hid
    have hone : RoomService.findOneRoomType db2 tid = .error roomTypeNotFound := by
      simp [RoomService.findOneRoomType, roomTypeFindUniqueLive_eq_none hgone]
    have hfind0 : db.roomTypes.find?
        (fun t => t.id_roomtype == tid && t.deleted == false) = some t0 := hfind
    obtain ⟨t1, ht1find, ht1p⟩ :=
      @find?_of_imp RoomTypeRow
        (fun t => t.id_roomtype == tid && t.deleted == false)
        (fun t => t.id_roomtype == tid)
        (fun x hx => ((Bool.and_eq_true _ _).mp hx).1) db.roomTypes t0 hfind0
    have ht1id : t1.id_roomtype = tid := by simpa using ht1p
    have hjoin : roomTypeFindUniqueAny db2 tid
        = some (markRoomTypeDeleted tid now t1) := by
      unfold roomTypeFindUniqueAny
      rw [hTypes, find?_map_markRoomTypeDeleted, ht1find]
      rfl
    have hdead : (markRoomTypeDeleted tid now t1).deleted = true :=
      markRoomTypeDeleted_kills (by rw [markRoomTypeDeleted_id]; exact ht1id)
    have hfo : RoomService.findOne db2 rid
        = .ok (roomDetailResponseOf r (markRoomTypeDeleted tid now t1)) := by
      unfold RoomService.findOne
      simp only [hr, href, hjoin]
    exact ⟨hone, markRoomTypeDeleted tid now t1,
      roomDetailResponseOf r (markRoomTypeDeleted tid now t1), hjoin, hdead, hfo, rfl⟩

/-- C3 witness: soft-delete `"t1"` in `sampleDB`; room `"r1"` still
references it and is still live. -/
theorem spec_C3_witness :
    RoomService.findOneRoomType (RoomService.deleteRoomType sampleDB 5 "t1").2 "t1"
      = .error roomTypeNotFound ∧
    ∃ t d, roomTypeFindUniqueAny (RoomService.deleteRoomType sampleDB 5 "t1").2 "t1"
        = some t ∧ t.deleted = true ∧
      RoomService.findOne (RoomService.deleteRoomType sampleDB 5 "t1").2 "r1"
        = .ok d ∧ d.roomtype = roomTypeViewOf t :=
  spec_C3_stale_join_survives sampleDB (RoomService.deleteRoomType sampleDB 5 "t1").2
    5 "t1" "r1" ⟨"Deleted successfully"⟩ sampleRoom rfl (by decide) rfl

/-- C8: the detail responses of `findOne` and `findAll` nest exactly the
trimmed view of the joined roomType row — `roomTypeViewOf`, which keeps
only `id_roomtype`, `price`, `created_at`, `updated_at` — and a
`RoomTypeView` is fully determined by those four fields (it carries no
`room_type` and no `deleted` component). -/
theorem spec_C8_trimmed_view (db : DB) (id : String) (d : RoomDetailResponse)
    (rs : List RoomDetailResponse) (e : RoomDetailResponse)
    (h1 : RoomService.findOne db id = .ok d)
    (h2 : RoomService.findAll db = .ok rs) (he : e ∈ rs) :
    (∃ t, roomTypeFindUniqueAny db d.id_roomtype = some t ∧
      d.roomtype = roomTypeViewOf t) ∧
    (∃ t, roomTypeFindUniqueAny db e.id_roomtype = some t ∧
      e.roomtype = roomTypeViewOf t) ∧
    (∀ v w : RoomTypeView, v.id_roomtype = w.id_roomtype → v.price = w.price →
      v.created_at = w.created_at → v.updated_at = w.updated_at → v = w) := by
  refine ⟨?_, ?_, ?_⟩
  · unfold RoomService.findOne at h1
    split at h1
    · exact absurd h1 (by simp)
    · split at h1
      · exact absurd h1 (by simp)
      · next r _ t hj =>
        simp only [Except.ok.injEq] at h1
        subst h1
        exact ⟨t, hj, rfl⟩
  · unfold RoomService.findAll at h2
    obtain ⟨ha, -⟩ := exceptMap_ok_mem h2
    obtain ⟨r, hrmem, hfr⟩ := ha e he
    cases hj : roomTypeFindUniqueAny db r.id_roomtype with
    | none => rw [hj] at hfr; exact absurd hfr (by simp)
    | some t =>
      rw [hj] at hfr
      simp only [Except.ok.injEq] at hfr
      subst hfr
      exact ⟨t, hj, rfl⟩
  · intro v w hv1 hv2 hv3 hv4
    cases v
    cases w
    simp_all

/-- C8 witness: `findOne` of `"r1"` and the element of `findAll` for
`"r3"` in `sampleDB`. -/
theorem spec_C8_witness :
    (∃ t, roomTypeFindUniqueAny sampleDB
        (roomDetailResponseOf sampleRoom sampleType).id_roomtype = some t ∧
      (roomDetailResponseOf sampleRoom sampleType).roomtype = roomTypeViewOf t) ∧
    (∃ t, roomTypeFindUniqueAny sampleDB
        (roomDetailResponseOf sampleRoomOnGone sampleTypeGone).id_roomtype = some t ∧
      (roomDetailResponseOf sampleRoomOnGone sampleTypeGone).roomtype
        = roomTypeViewOf t) ∧
    (∀ v w : RoomTypeView, v.id_roomtype = w.id_roomtype → v.price = w.price →
      v.created_at = w.created_at → v.updated_at = w.updated_at → v = w) :=
  spec_C8_trimmed_view sampleDB "r1" (roomDetailResponseOf sampleRoom sampleType)
    [roomDetailResponseOf sampleRoom sampleType,
     roomDetailResponseOf sampleRoomOnGone sampleTypeGone]
    (roomDetailResponseOf sampleRoomOnGone sampleTypeGone) rfl rfl (by decide)

/-- C10: `deleteRoomType` checks only the RoomType row itself — it fails
(with NotFound) exactly when every roomType row carrying the id is
soft-deleted (in particular when none exists), and when a live row exists
it succeeds even while live Rooms still reference that id, leaving those
Rooms referencing a soft-deleted type. -/
theorem spec_C10_no_referential_check (db : DB) (tid : String) (now : Nat) :
    ((∃ e, (RoomService.deleteRoomType db now tid).1 = .error e) ↔
      ∀ t ∈ db.roomTypes, t.id_roomtype = tid → t.deleted = true) ∧
    (∀ t0, roomTypeFindUniqueLive db tid = some t0 →
      (∃ r ∈ db.rooms, r.deleted = false ∧ r.id_roomtype = tid) →
      ∃ db2, RoomService.deleteRoomType db now tid
          = (.ok ⟨"Deleted successfully"⟩, db2) ∧
        db2.rooms = db.rooms ∧
        (∃ r ∈ db2.rooms, r.deleted = false ∧ r.id_roomtype = tid) ∧
        (∀ t ∈ db2.roomTypes, t.id_roomtype = tid → t.deleted = true)) := by
  constructor
  · constructor
    · rintro ⟨e, he⟩
      cases hfind : roomTypeFindUniqueLive db tid with
      | some t0 =>
        unfold RoomService.deleteRoomType at he
        rw [hfind] at he
        exact absurd he (by simp)
      | none =>
        intro t htm hid
        have := List.find?_eq_none.mp hfind t htm
        simp only [Bool.and_eq_true, beq_iff_eq, not_and] at this
        have h2 := this hid
        cases ht : t.deleted with
        | true => rfl
        | false => rw [ht] at h2; exact absurd rfl h2
    · intro hgone
      exact ⟨roomTypeNotFound, by
        simp [RoomService.deleteRoomType, roomTypeFindUniqueLive_eq_none hgone]⟩
  · rintro t0 hfind ⟨r, hrmem, hrlive, hrref⟩
    refine ⟨{ db with roomTypes := db.roomTypes.map (markRoomTypeDeleted tid now) },
      ?_, rfl, ⟨r, hrmem, hrlive, hrref⟩, ?_⟩
    · unfold RoomService.deleteRoomType
      rw [hfind]
    · intro t htm hid
      obtain ⟨t1, ht1, rfl⟩ := List.mem_map.mp htm
      exact markRoomTypeDeleted_kills hid

/-- C10 witness: `sampleDB` at id `"t1"`, still referenced by live room
`"r1"`. -/
theorem spec_C10_witness :
    ((∃ e, (RoomService.deleteRoomType sampleDB 5 "t1").1 = .error e) ↔
      ∀ t ∈ sampleDB.roomTypes, t.id_roomtype = "t1" → t.deleted = true) ∧
    (∀ t0, roomTypeFindUniqueLive sampleDB "t1" = some t0 →
      (∃ r ∈ sampleDB.rooms, r.deleted = false ∧ r.id_roomtype = "t1") →
      ∃ db2, RoomService.deleteRoomType sampleDB 5 "t1"
          = (.ok ⟨"Deleted successfully"⟩, db2) ∧
        db2.rooms = sampleDB.rooms ∧
        (∃ r ∈ db2.rooms, r.deleted = false ∧ r.id_roomtype = "t1") ∧
        (∀ t ∈ db2.roomTypes, t.id_roomtype = "t1" → t.deleted = true)) :=
  spec_C10_no_referential_check sampleDB "t1" 5
